import Mathlib

/-!
Verification of the beacon-FQDN dissector stage of RITA
(`pkg/beaconfqdn/dissector.go`): the multi-stage aggregation query issued
against the `uconn` collection, the per-row classification into strobe and
beacon-candidate records, the worker result loop, and the intake-channel
lifecycle.

Modelling conventions: Go `int64` values become `Int` (none of the verified
paths performs arithmetic that can overflow in the source); MongoDB
aggregation stages become functions on lists of documents, one Lean
definition per pipeline stage, where the net effect of each
`$unwind`/`$unwind`/`$group` triple is given as a single transformation of
the grouped document as explained at its definition; the outbound callback
invocations of a code path become the list of records that path emits, in
order; a fallible store query becomes an `Except` value supplied by the
environment.
-/

/-- Source identity triple `data.UniqueSrcIP` (package `data` is not under
`src/`): the three string fields are taken from its uses at
dissector.go:258-260 and dissector.go:278, matching the spec's
(source IP, network UUID, network name) identity. The BSON binary UUID is
modelled as a string. -/
structure UniqueSrcIP where
  srcIP : String
  srcNetworkUUID : String
  srcNetworkName : String
  deriving DecidableEq

/-- Modelled from the spec: one per-day bucket of a `uconn` document's `dat`
array, holding exactly the fields the aggregation reads (`dat.ts`,
`dat.bytes`, `dat.count`, `dat.tbytes`, `dat.icerts`); the uconn collection
schema itself is outside `src/` and is given by the store contract of
spec §6. -/
structure DayBucket where
  ts : List Int
  bytes : List Int
  count : Int
  tbytes : Int
  icerts : Bool
  deriving DecidableEq

/-- Modelled from the spec: one document of the `uconn` collection as read by
the aggregation pipeline — source identity fields, the destination IP that
the `$or` disjunction matches on, and the per-day `dat` buckets. -/
structure UconnRecord where
  src : String
  srcNetworkUUID : String
  srcNetworkName : String
  dst : String
  dat : List DayBucket
  deriving DecidableEq

/-- Shape of a document after the `$project` stage (dissector.go:174-195):
per-day arrays flattened, per-day counts and byte totals summed, per-day
invalid-certificate indicators OR-ed. -/
structure ProjectedUconn where
  src : String
  srcNetworkUUID : String
  srcNetworkName : String
  ts : List Int
  bytes : List Int
  count : Int
  tbytes : Int
  icerts : Bool
  deriving DecidableEq

/-- Shape of a document after the `$group` stage (dissector.go:196-203):
grouped by the source identity triple, timestamp and byte arrays pushed
(one inner list per contributing uconn document), counts and byte totals
summed, certificate flags pushed. -/
structure GroupedUconn where
  id : UniqueSrcIP
  ts : List (List Int)
  bytes : List (List Int)
  count : Int
  tbytes : Int
  icerts : List Bool
  deriving DecidableEq

/-- Shape of a document after the two `$unwind` stages on `ts` and the
`$group` with `$addToSet` (dissector.go:205-226): the nested timestamp
arrays are flattened into one deduplicated set per source. -/
structure TsDedupedUconn where
  id : UniqueSrcIP
  ts : List Int
  bytes : List (List Int)
  count : Int
  tbytes : Int
  icerts : List Bool
  deriving DecidableEq

/-- Shape of a document after the two `$unwind` stages on `bytes` and the
`$group` with `$push` (dissector.go:227-242): the nested byte arrays are
flattened into one list per source, duplicates preserved. -/
structure BytesFlatUconn where
  id : UniqueSrcIP
  ts : List Int
  bytes : List Int
  count : Int
  tbytes : Int
  icerts : List Bool
  deriving DecidableEq

/-- One row of the aggregation's result set: the Go struct `indvidualRes`
(dissector.go:256-267), fields in source order. -/
structure IndvidualRes where
  src : String
  srcNetworkUUID : String
  srcNetworkName : String
  count : Int
  ts : List Int
  bytes : List Int
  tbytes : Int
  icerts : Bool
  deriving DecidableEq

/-- Modelled from the spec: `hostname.FqdnInput` (package `hostname` is not
under `src/`). It serves both as the intake resolution unit — FQDN,
resolved-IP set, and the precomputed destination filter disjunction
`DstBSONList`, modelled as the list of destination IPs the `$or` matches —
and as the outbound analysis record with the fields set at
dissector.go:279-297. Unset fields default to Go zero values. -/
structure FqdnInput where
  fqdn : String := ""
  src : UniqueSrcIP := { srcIP := "", srcNetworkUUID := "", srcNetworkName := "" }
  connectionCount : Int := 0
  totalBytes : Int := 0
  invalidCertFlag : Bool := false
  resolvedIPs : List String := []
  tsList : List Int := []
  origBytesList : List Int := []
  dstBSONList : List String := []
  deriving DecidableEq

/-- Stage `$match` (dissector.go:173): keep the uconn documents whose
destination matches some term of the `$or` disjunction built from the
entry's resolved IPs. -/
def matchStage (dstBSONList : List String) (uconns : List UconnRecord) :
    List UconnRecord :=
  uconns.filter fun r => r.dst ∈ dstBSONList

/-- Stage `$project` (dissector.go:174-195): `$reduce`/`$concatArrays` over
`dat.ts` and `dat.bytes` is list concatenation, `$sum` over `dat.count` and
`dat.tbytes` is the list sum, `$anyElementTrue` over `dat.icerts` is a
boolean any. -/
def projectStage (r : UconnRecord) : ProjectedUconn :=
  { src := r.src
    srcNetworkUUID := r.srcNetworkUUID
    srcNetworkName := r.srcNetworkName
    ts := (r.dat.map DayBucket.ts).flatten
    bytes := (r.dat.map DayBucket.bytes).flatten
    count := (r.dat.map DayBucket.count).sum
    tbytes := (r.dat.map DayBucket.tbytes).sum
    icerts := r.dat.any DayBucket.icerts }

/-- Grouping key of the `$group` stage (dissector.go:197): the
(src, uuid, network) triple. -/
def groupKey (p : ProjectedUconn) : UniqueSrcIP :=
  { srcIP := p.src, srcNetworkUUID := p.srcNetworkUUID, srcNetworkName := p.srcNetworkName }

/-- Stage `$group` (dissector.go:196-203): one output document per distinct
source identity; `$push` collects the per-document arrays, `$sum` adds the
counts and byte totals. -/
def groupStage (ps : List ProjectedUconn) : List GroupedUconn :=
  ((ps.map groupKey).dedup).map fun k =>
    let grp := ps.filter fun p => groupKey p = k
    { id := k
      ts := grp.map ProjectedUconn.ts
      bytes := grp.map ProjectedUconn.bytes
      count := (grp.map ProjectedUconn.count).sum
      tbytes := (grp.map ProjectedUconn.tbytes).sum
      icerts := grp.map ProjectedUconn.icerts }

/-- Stage `$match` on the grouped count (dissector.go:204): the source writes
the literal `bson.M{"count": bson.M{"$gt": 20}}`, a hardcoded strict
greater-than-20 filter. -/
def thresholdStage (gs : List GroupedUconn) : List GroupedUconn :=
  gs.filter fun g => 20 < g.count

/-- Modelled from the spec: the step-4 threshold filter of §4.2 as the spec
describes it, parameterized by the configured minimum-connection threshold.
Kept separate from `thresholdStage` (the source's hardcoded filter) so the
two can be compared. -/
def thresholdStageSpec (minThresh : Int) (gs : List GroupedUconn) :
    List GroupedUconn :=
  gs.filter fun g => minThresh < g.count

/-- Net effect of the two `$unwind` stages on `ts` followed by the `$group`
with `$addToSet` (dissector.go:205-226): unwinding the pushed
list-of-lists twice yields one document per timestamp, and regrouping by
the carried `_id` with `$addToSet` collects them into a duplicate-free
set, while `$first` keeps every other field unchanged (all documents of a
group carry identical copies of those fields). `preserveNullAndEmptyArrays`
together with `$addToSet` skipping missing values makes empty inner arrays
contribute nothing, which is exactly `dedup` of the concatenation. -/
def tsUnwindGroupStage (g : GroupedUconn) : TsDedupedUconn :=
  { id := g.id
    ts := g.ts.flatten.dedup
    bytes := g.bytes
    count := g.count
    tbytes := g.tbytes
    icerts := g.icerts }

/-- Net effect of the two `$unwind` stages on `bytes` followed by the
`$group` with `$push` (dissector.go:227-242): flattening the pushed
list-of-lists with duplicates preserved, `$first` keeping the other fields. -/
def bytesUnwindGroupStage (t : TsDedupedUconn) : BytesFlatUconn :=
  { id := t.id
    ts := t.ts
    bytes := t.bytes.flatten
    count := t.count
    tbytes := t.tbytes
    icerts := t.icerts }

/-- Final `$project` stage (dissector.go:243-253): the identity triple is
unpacked from `_id` and `$anyElementTrue` ORs the pushed certificate
flags. -/
def finalProjectStage (b : BytesFlatUconn) : IndvidualRes :=
  { src := b.id.srcIP
    srcNetworkUUID := b.id.srcNetworkUUID
    srcNetworkName := b.id.srcNetworkName
    count := b.count
    ts := b.ts
    bytes := b.bytes
    tbytes := b.tbytes
    icerts := b.icerts.any id }

/-- Stages 1-4 of the pipeline (dissector.go:173-204): match, project, group
by source identity, and the grouped-count threshold filter. -/
def groupedPipeline (dstBSONList : List String) (uconns : List UconnRecord) :
    List GroupedUconn :=
  thresholdStage (groupStage ((matchStage dstBSONList uconns).map projectStage))

/-- Whole aggregation `uconnFindQuery` (dissector.go:166-254) as a function
from the uconn collection contents to the result rows decoded into
`indvidualRes`. -/
def uconnFindQuery (dstBSONList : List String) (uconns : List UconnRecord) :
    List IndvidualRes :=
  (((groupedPipeline dstBSONList uconns).map tsUnwindGroupStage).map
      bytesUnwindGroupStage).map finalProjectStage

/-- Record built at dissector.go:279-286: the analysis input before any
timestamp or byte payload is attached (this is exactly what the strobe
path at dissector.go:289-293 forwards). -/
def strobeRecord (entry : FqdnInput) (res : IndvidualRes) : FqdnInput :=
  { fqdn := entry.fqdn
    src := { srcIP := res.src, srcNetworkUUID := res.srcNetworkUUID,
             srcNetworkName := res.srcNetworkName }
    connectionCount := res.count
    totalBytes := res.tbytes
    invalidCertFlag := res.icerts
    resolvedIPs := entry.resolvedIPs
    tsList := []
    origBytesList := []
    dstBSONList := [] }

/-- Record forwarded by the beacon-candidate path (dissector.go:294-302):
the same base record with the row's timestamp and originator-byte lists
attached. -/
def beaconRecord (entry : FqdnInput) (res : IndvidualRes) : FqdnInput :=
  { strobeRecord entry res with tsList := res.ts, origBytesList := res.bytes }

/-- Classification of one result row (dissector.go:276-306), returning the
list of `dissectedCallback` invocations that row causes, in order: build
the analysis input, forward it as-is when `ConnectionCount > connLimit`
(strobe), otherwise attach the timestamp and byte payloads and forward
only when more than 3 unique timestamps are present. -/
def classify (connLimit : Int) (entry : FqdnInput) (res : IndvidualRes) :
    List FqdnInput :=
  let srcCurr : UniqueSrcIP :=
    { srcIP := res.src, srcNetworkUUID := res.srcNetworkUUID,
      srcNetworkName := res.srcNetworkName }
  let analysisInput : FqdnInput :=
    { fqdn := entry.fqdn
      src := srcCurr
      connectionCount := res.count
      totalBytes := res.tbytes
      invalidCertFlag := res.icerts
      resolvedIPs := entry.resolvedIPs
      tsList := []
      origBytesList := []
      dstBSONList := [] }
  if analysisInput.connectionCount > connLimit then
    [analysisInput]
  else
    let analysisInput2 : FqdnInput :=
      { analysisInput with tsList := res.ts, origBytesList := res.bytes }
    if analysisInput2.tsList.length > 3 then
      [analysisInput2]
    else
      []

/-- Result loop of one intake entry (dissector.go:276-306): every row of the
query result is classified and the accepted records are forwarded in
order. -/
def dissectEntry (connLimit : Int) (entry : FqdnInput)
    (allResults : List IndvidualRes) : List FqdnInput :=
  allResults.flatMap (classify connLimit entry)

/-- Modelled from the spec: the contents of `allResults` after
`.All(&allResults)` at dissector.go:269-271. The mgo driver is external to
the repository; per the spec, a failed query is treated identically to
zero results, so the error branch yields the empty slice. The discarded
error (`_ = ...`) is the `Except.error` payload. -/
def queryOutcome (outcome : Except String (List IndvidualRes)) :
    List IndvidualRes :=
  match outcome with
  | Except.ok results => results
  | Except.error _ => []

/-- Worker loop body over the drained intake channel (dissector.go:148-308):
each dequeued entry is paired with the store's response to its query
(supplied by the environment as an `Except`); the emitted records of all
entries are concatenated in processing order. The return type carries no
error: the query error cannot propagate anywhere. -/
def workerRun (connLimit : Int)
    (work : List (FqdnInput × Except String (List IndvidualRes))) :
    List FqdnInput :=
  work.flatMap fun w => dissectEntry connLimit w.1 (queryOutcome w.2)

/-- State of the intake channel `dissectChannel` (dissector.go:22, created
unbuffered at dissector.go:39): the only state a send observes is whether
the channel has been closed. -/
structure DissectChannel where
  closedFlag : Bool
  deriving DecidableEq

/-- Outcome of one send on the intake channel: either the entry is handed to
a worker, or the send causes a run-time panic. -/
inductive SendOutcome where
  | delivered (entry : FqdnInput) : SendOutcome
  | panicked : SendOutcome
  deriving DecidableEq

/-- Embeds `collect` (dissector.go:44-46), the bare send
`d.dissectChannel <- entry`: per the Go language semantics, a send on a
closed channel causes a run-time panic; on an open channel the synchronous
send hands the entry to a worker. -/
def collect (ch : DissectChannel) (entry : FqdnInput) : SendOutcome :=
  if ch.closedFlag then SendOutcome.panicked else SendOutcome.delivered entry

/-- Embeds the channel-closing step `close(d.dissectChannel)` of `close`
(dissector.go:49-53). -/
def closeIntake (ch : DissectChannel) : DissectChannel :=
  { ch with closedFlag := true }

/-- Intake fixture: an FQDN resolving to one IP. -/
def entryFqdnA : FqdnInput :=
  { fqdn := "evil.example.com", resolvedIPs := ["198.51.100.5"],
    dstBSONList := ["198.51.100.5"] }

/-- Row fixture sitting exactly at the strobe limit used below (count 50),
with 4 unique timestamps. -/
def resAtLimit : IndvidualRes :=
  { src := "10.0.0.7", srcNetworkUUID := "u1", srcNetworkName := "n1",
    count := 50, ts := [1, 2, 3, 4], bytes := [10, 20], tbytes := 500,
    icerts := false }

/-- Row fixture below the strobe limit with 5 unique timestamps. -/
def resBelowLimit : IndvidualRes :=
  { src := "10.0.0.7", srcNetworkUUID := "u2", srcNetworkName := "n2",
    count := 15, ts := [11, 12, 13, 14, 15], bytes := [7, 8], tbytes := 300,
    icerts := false }

/-- Row fixture far above the strobe limit with only 2 unique timestamps. -/
def resStrobe : IndvidualRes :=
  { src := "10.0.0.7", srcNetworkUUID := "u3", srcNetworkName := "n3",
    count := 5000, ts := [1, 2], bytes := [9, 9], tbytes := 12345,
    icerts := false }

/-- Uconn fixture whose single source sums to 50 connections. -/
def uconnC4 : UconnRecord :=
  { src := "10.9.9.9", srcNetworkUUID := "u4", srcNetworkName := "n4",
    dst := "d4",
    dat := [{ ts := [1, 2, 3, 4, 5], bytes := [7], count := 50,
              tbytes := 4000, icerts := false }] }

/-- The row the query produces from `uconnC4`. -/
def resC4 : IndvidualRes :=
  { src := "10.9.9.9", srcNetworkUUID := "u4", srcNetworkName := "n4",
    count := 50, ts := [1, 2, 3, 4, 5], bytes := [7], tbytes := 4000,
    icerts := false }

/-- Uconn fixture whose day bucket repeats the timestamp 2. -/
def uconnMixed : UconnRecord :=
  { src := "10.5.5.5", srcNetworkUUID := "u5", srcNetworkName := "n5",
    dst := "d5",
    dat := [{ ts := [1, 2, 2, 3, 4], bytes := [10, 10], count := 21,
              tbytes := 100, icerts := false }] }

/-- The row the query produces from `uconnMixed`: the duplicated timestamp
is removed, the byte list keeps its duplicate. -/
def resMixed : IndvidualRes :=
  { src := "10.5.5.5", srcNetworkUUID := "u5", srcNetworkName := "n5",
    count := 21, ts := [1, 2, 3, 4], bytes := [10, 10], tbytes := 100,
    icerts := false }

/-- Intake fixture for the deduplication scenario. -/
def entryFqdnD : FqdnInput :=
  { fqdn := "mixed.example.com", resolvedIPs := ["203.0.113.9"],
    dstBSONList := ["d5"] }

/-- Uconn fixture: first of two resolved IPs, one connection of 100 bytes. -/
def uconnDupA : UconnRecord :=
  { src := "10.0.0.7", srcNetworkUUID := "u6", srcNetworkName := "n6",
    dst := "198.51.100.5",
    dat := [{ ts := [1, 2, 3], bytes := [100], count := 15, tbytes := 500,
              icerts := false }] }

/-- Uconn fixture: second resolved IP of the same source, another connection
of the same 100-byte size. -/
def uconnDupB : UconnRecord :=
  { src := "10.0.0.7", srcNetworkUUID := "u6", srcNetworkName := "n6",
    dst := "198.51.100.6",
    dat := [{ ts := [4, 5, 6], bytes := [100], count := 16, tbytes := 600,
              icerts := true }] }

/-- The single row the query produces from `uconnDupA` and `uconnDupB`: both
identical byte counts survive. -/
def resDup : IndvidualRes :=
  { src := "10.0.0.7", srcNetworkUUID := "u6", srcNetworkName := "n6",
    count := 31, ts := [1, 2, 3, 4, 5, 6], bytes := [100, 100],
    tbytes := 1100, icerts := true }

/-- Intake fixture for the field-preservation scenario. -/
def entryFqdnF : FqdnInput :=
  { fqdn := "evil.example.com", resolvedIPs := ["198.51.100.5"],
    dstBSONList := ["198.51.100.5"] }

/-- Row fixture below the strobe limit with 5 unique timestamps and the
invalid-certificate flag set. -/
def resPreserve : IndvidualRes :=
  { src := "10.0.0.7", srcNetworkUUID := "u0", srcNetworkName := "n0",
    count := 15, ts := [1, 2, 3, 4, 5], bytes := [10, 20], tbytes := 900,
    icerts := true }

/-- Unfolding lemma for the classifier: the result loop body is the
two-level strict comparison written at dissector.go:289-300. -/
theorem classify_eq (connLimit : Int) (entry : FqdnInput) (res : IndvidualRes) :
    classify connLimit entry res =
      if res.count > connLimit then [strobeRecord entry res]
      else if 3 < res.ts.length then [beaconRecord entry res]
      else [] :=
  rfl

/-- The whole query is the stage-1-to-4 pipeline followed by the three
per-group payload transformations. -/
theorem uconnFindQuery_eq (dstBSONList : List String) (uconns : List UconnRecord) :
    uconnFindQuery dstBSONList uconns =
      (groupedPipeline dstBSONList uconns).map fun g =>
        finalProjectStage (bytesUnwindGroupStage (tsUnwindGroupStage g)) := by
  simp [uconnFindQuery, List.map_map, Function.comp]

/-- Every result row's timestamp list is duplicate-free. -/
theorem ts_nodup_of_mem_uconnFindQuery (dstBSONList : List String)
    (uconns : List UconnRecord) (s : IndvidualRes)
    (hs : s ∈ uconnFindQuery dstBSONList uconns) : s.ts.Nodup := by
  rw [uconnFindQuery_eq] at hs
  obtain ⟨g, hg, rfl⟩ := List.mem_map.mp hs
  exact List.nodup_dedup _

/-- C1: a result row whose connection count equals the strobe limit exactly
does not take the strobe branch; it falls through to the beacon-candidate
check and is emitted (with timestamp and byte payloads attached) only when
it has more than 3 unique timestamps. -/
theorem classify_at_strobe_limit_takes_beacon_branch (connLimit : Int)
    (entry : FqdnInput) (res : IndvidualRes) (h : res.count = connLimit) :
    classify connLimit entry res =
      if 3 < res.ts.length then [beaconRecord entry res] else [] := by
  rw [classify_eq, h]
  simp

/-- C1 witness: at strobe limit 50, the row `resAtLimit` with count exactly
50 goes through the beacon-candidate check. -/
theorem classify_at_strobe_limit_takes_beacon_branch_witness :
    resAtLimit.count = 50 ∧
      classify 50 entryFqdnA resAtLimit =
        if 3 < resAtLimit.ts.length then [beaconRecord entryFqdnA resAtLimit]
        else [] :=
  ⟨by decide, classify_at_strobe_limit_takes_beacon_branch 50 entryFqdnA resAtLimit (by decide)⟩

/-- C2: a result row whose connection count is not above the strobe limit is
silently discarded when it has 3 or fewer unique timestamps, and emitted as
a beacon-candidate record when it has 4 or more — the check is a strict
greater-than 3. -/
theorem classify_below_strobe_limit_min_sample (connLimit : Int)
    (entry : FqdnInput) (res : IndvidualRes) (h : res.count ≤ connLimit) :
    (res.ts.length ≤ 3 → classify connLimit entry res = []) ∧
      (3 < res.ts.length →
        classify connLimit entry res = [beaconRecord entry res]) ∧
      (beaconRecord entry res).tsList = res.ts ∧
      (beaconRecord entry res).origBytesList = res.bytes := by
  have hgt : ¬ res.count > connLimit := not_lt.mpr h
  refine ⟨?_, ?_, rfl, rfl⟩
  · intro h3
    rw [classify_eq, if_neg hgt, if_neg (by omega)]
  · intro h3
    rw [classify_eq, if_neg hgt, if_pos h3]

/-- C2 witness: at strobe limit 50, the row `resBelowLimit` with count 15 and
5 unique timestamps is emitted on the beacon-candidate path. -/
theorem classify_below_strobe_limit_min_sample_witness :
    resBelowLimit.count ≤ 50 ∧
      (resBelowLimit.ts.length ≤ 3 → classify 50 entryFqdnA resBelowLimit = []) ∧
      (3 < resBelowLimit.ts.length →
        classify 50 entryFqdnA resBelowLimit = [beaconRecord entryFqdnA resBelowLimit]) ∧
      (beaconRecord entryFqdnA resBelowLimit).tsList = resBelowLimit.ts ∧
      (beaconRecord entryFqdnA resBelowLimit).origBytesList = resBelowLimit.bytes :=
  ⟨by decide, classify_below_strobe_limit_min_sample 50 entryFqdnA resBelowLimit (by decide)⟩

/-- C3: a result row whose connection count strictly exceeds the strobe
limit is always emitted on the strobe path, whatever its timestamp list,
and the forwarded record carries empty timestamp and originator-byte
payloads. -/
theorem classify_above_strobe_limit_strobe_path (connLimit : Int)
    (entry : FqdnInput) (res : IndvidualRes) (h : connLimit < res.count) :
    classify connLimit entry res = [strobeRecord entry res] ∧
      (strobeRecord entry res).tsList = [] ∧
      (strobeRecord entry res).origBytesList = [] := by
  refine ⟨?_, rfl, rfl⟩
  rw [classify_eq, if_pos h]

/-- C3 witness: at strobe limit 50, the row `resStrobe` with count 5000 and
only 2 unique timestamps is emitted as a strobe with empty payloads. -/
theorem classify_above_strobe_limit_strobe_path_witness :
    (50 : Int) < resStrobe.count ∧
      (classify 50 entryFqdnA resStrobe = [strobeRecord entryFqdnA resStrobe] ∧
        (strobeRecord entryFqdnA resStrobe).tsList = [] ∧
        (strobeRecord entryFqdnA resStrobe).origBytesList = []) :=
  ⟨by decide, classify_above_strobe_limit_strobe_path 50 entryFqdnA resStrobe (by decide)⟩

/-- C4 counterexample: it is not true that for every configured
minimum-connection threshold the query discards groups at or below it — on
the fixture collection `[uconnC4]` the query emits a source summary with
connection count 50, which a configured threshold of 100 would require to
be discarded. The filter written at dissector.go:204 is a literal 20 and
does not read the configuration. -/
theorem uconnFindQuery_ignores_configured_threshold :
    ¬ ∀ minThresh : Int, ∀ s ∈ uconnFindQuery ["d4"] [uconnC4],
        minThresh < s.count := by
  intro h
  exact absurd (h 100 resC4 (by decide)) (by decide)

/-- C4 (amended): the aggregation plan applies the noise filter after
grouping by source identity, but against a hardcoded strict
greater-than-20 comparison — the configuration's default value — rather
than the configured minimum-connection threshold: a source summary is
produced only when the summed connection count strictly exceeds 20, and
the source's filter stage coincides with the spec's configurable filter
exactly at the value 20. -/
theorem uconnFindQuery_threshold_hardcoded_twenty (dstBSONList : List String)
    (uconns : List UconnRecord) (s : IndvidualRes)
    (hs : s ∈ uconnFindQuery dstBSONList uconns) :
    20 < s.count ∧
      ∀ gs : List GroupedUconn, thresholdStage gs = thresholdStageSpec 20 gs := by
  refine ⟨?_, fun gs => rfl⟩
  rw [uconnFindQuery_eq] at hs
  obtain ⟨g, hg, rfl⟩ := List.mem_map.mp hs
  simpa [thresholdStage] using (List.mem_filter.mp hg).2

/-- C4 (amended) witness: the summary produced from `uconnC4` has count 50,
strictly above the hardcoded 20. -/
theorem uconnFindQuery_threshold_hardcoded_twenty_witness :
    (20 : Int) < resC4.count ∧
      ∀ gs : List GroupedUconn, thresholdStage gs = thresholdStageSpec 20 gs :=
  uconnFindQuery_threshold_hardcoded_twenty ["d4"] [uconnC4] resC4 (by decide)

/-- C5: every record the result loop emits carries a duplicate-free
timestamp list, and the deduplication happens only after the group's
connection count and byte total are fixed: each result row's count and
byte total are exactly those of its stage-3 group, whose timestamp set the
row carries as `dedup` of the concatenated per-destination lists. -/
theorem uconnFindQuery_ts_nodup_after_sums (dstBSONList : List String)
    (uconns : List UconnRecord) (connLimit : Int) (entry : FqdnInput)
    (s : IndvidualRes) (rec : FqdnInput)
    (hs : s ∈ uconnFindQuery dstBSONList uconns)
    (hrec : rec ∈ classify connLimit entry s) :
    rec.tsList.Nodup ∧
      ∃ g ∈ groupedPipeline dstBSONList uconns,
        s.ts = g.ts.flatten.dedup ∧ s.count = g.count ∧ s.tbytes = g.tbytes := by
  have hnd : s.ts.Nodup := ts_nodup_of_mem_uconnFindQuery _ _ _ hs
  constructor
  · rw [classify_eq] at hrec
    by_cases h1 : s.count > connLimit
    · rw [if_pos h1, List.mem_singleton] at hrec
      subst hrec
      exact List.nodup_nil
    · rw [if_neg h1] at hrec
      by_cases h2 : 3 < s.ts.length
      · rw [if_pos h2, List.mem_singleton] at hrec
        subst hrec
        exact hnd
      · rw [if_neg h2] at hrec
        exact absurd hrec (List.not_mem_nil _)
  · rw [uconnFindQuery_eq] at hs
    obtain ⟨g, hg, rfl⟩ := List.mem_map.mp hs
    exact ⟨g, hg, rfl, rfl, rfl⟩

/-- C5 witness: the collection `[uconnMixed]` repeats timestamp 2; the
emitted beacon-candidate record carries the deduplicated list, and the
row's count and byte total are the pre-dedup group sums. -/
theorem uconnFindQuery_ts_nodup_after_sums_witness :
    (beaconRecord entryFqdnD resMixed).tsList.Nodup ∧
      ∃ g ∈ groupedPipeline ["d5"] [uconnMixed],
        resMixed.ts = g.ts.flatten.dedup ∧ resMixed.count = g.count ∧
          resMixed.tbytes = g.tbytes :=
  uconnFindQuery_ts_nodup_after_sums ["d5"] [uconnMixed] 50 entryFqdnD resMixed
    (beaconRecord entryFqdnD resMixed) (by decide) (by decide)

/-- C6: every result row's originator-byte list is the flat concatenation of
its stage-3 group's per-destination byte arrays — no deduplication is
applied to bytes, so equal byte counts from different contributing
connections all survive. -/
theorem uconnFindQuery_bytes_preserve_duplicates (dstBSONList : List String)
    (uconns : List UconnRecord) (s : IndvidualRes)
    (hs : s ∈ uconnFindQuery dstBSONList uconns) :
    ∃ g ∈ groupedPipeline dstBSONList uconns, s.bytes = g.bytes.flatten := by
  rw [uconnFindQuery_eq] at hs
  obtain ⟨g, hg, rfl⟩ := List.mem_map.mp hs
  exact ⟨g, hg, rfl⟩

/-- C6 witness: two connections of the same source to two different resolved
IPs, each with an identical 100-byte count, yield one summary whose byte
list keeps both entries: `resDup.bytes = [100, 100]`. -/
theorem uconnFindQuery_bytes_preserve_duplicates_witness :
    resDup.bytes = [100, 100] ∧
      ∃ g ∈ groupedPipeline ["198.51.100.5", "198.51.100.6"] [uconnDupA, uconnDupB],
        resDup.bytes = g.bytes.flatten :=
  ⟨rfl,
    uconnFindQuery_bytes_preserve_duplicates ["198.51.100.5", "198.51.100.6"]
      [uconnDupA, uconnDupB] resDup (by decide)⟩

/-- C7: a failed store query is treated identically to an empty result set —
the worker emits no record for that unit, proceeds to the remaining intake
items unchanged, and the discarded error reaches neither the caller of
`collect` nor `close` (the worker's output type carries no error at all). -/
theorem workerRun_query_error_like_empty (connLimit : Int)
    (pre post : List (FqdnInput × Except String (List IndvidualRes)))
    (entry : FqdnInput) (msg : String) :
    workerRun connLimit (pre ++ (entry, Except.error msg) :: post) =
        workerRun connLimit (pre ++ (entry, Except.ok []) :: post) ∧
      workerRun connLimit (pre ++ (entry, Except.error msg) :: post) =
        workerRun connLimit pre ++ workerRun connLimit post := by
  constructor <;> simp [workerRun, queryOutcome, dissectEntry]

/-- C9: submitting a unit after the intake channel has been closed causes a
run-time panic on every such send — the unit is never delivered nor
silently dropped. -/
theorem collect_after_close_panics (ch : DissectChannel) (entry : FqdnInput) :
    collect (closeIntake ch) entry = SendOutcome.panicked := by
  simp [collect, closeIntake]

/-- C10: each result row causes at most one callback invocation (the strobe
and beacon-candidate paths are mutually exclusive), and every record it
emits carries the row's connection count, byte total, source identity and
invalid-certificate flag and the intake unit's FQDN and resolved-IP set
unchanged. -/
theorem classify_at_most_once_preserves_fields (connLimit : Int)
    (entry : FqdnInput) (res : IndvidualRes) (rec : FqdnInput)
    (hrec : rec ∈ classify connLimit entry res) :
    (classify connLimit entry res).length ≤ 1 ∧
      rec.fqdn = entry.fqdn ∧
      rec.src = { srcIP := res.src, srcNetworkUUID := res.srcNetworkUUID,
                  srcNetworkName := res.srcNetworkName } ∧
      rec.connectionCount = res.count ∧
      rec.totalBytes = res.tbytes ∧
      rec.invalidCertFlag = res.icerts ∧
      rec.resolvedIPs = entry.resolvedIPs := by
  rw [classify_eq] at hrec ⊢
  by_cases h1 : res.count > connLimit
  · rw [if_pos h1] at hrec ⊢
    rw [List.mem_singleton] at hrec
    subst hrec
    exact ⟨by simp, rfl, rfl, rfl, rfl, rfl, rfl⟩
  · rw [if_neg h1] at hrec ⊢
    by_cases h2 : 3 < res.ts.length
    · rw [if_pos h2] at hrec ⊢
      rw [List.mem_singleton] at hrec
      subst hrec
      exact ⟨by simp, rfl, rfl, rfl, rfl, rfl, rfl⟩
    · rw [if_neg h2] at hrec
      exact absurd hrec (List.not_mem_nil _)

/-- C10 witness: the beacon-candidate record emitted for `resPreserve`
carries the row's fields and the intake unit's FQDN and resolved IPs
unchanged, and the row causes exactly one callback. -/
theorem classify_at_most_once_preserves_fields_witness :
    (classify 50 entryFqdnF resPreserve).length ≤ 1 ∧
      (beaconRecord entryFqdnF resPreserve).fqdn = entryFqdnF.fqdn ∧
      (beaconRecord entryFqdnF resPreserve).src =
        { srcIP := resPreserve.src, srcNetworkUUID := resPreserve.srcNetworkUUID,
          srcNetworkName := resPreserve.srcNetworkName } ∧
      (beaconRecord entryFqdnF resPreserve).connectionCount = resPreserve.count ∧
      (beaconRecord entryFqdnF resPreserve).totalBytes = resPreserve.tbytes ∧
      (beaconRecord entryFqdnF resPreserve).invalidCertFlag = resPreserve.icerts ∧
      (beaconRecord entryFqdnF resPreserve).resolvedIPs = entryFqdnF.resolvedIPs :=
  classify_at_most_once_preserves_fields 50 entryFqdnF resPreserve
    (beaconRecord entryFqdnF resPreserve) (by decide)
